import Mathlib

/-!
Verification development for the QGIS plugin-generator desktop application.

The repository contains two variants of the same application:
  - `main_app.py` (the basic variant), modelled in namespace `MainApp`;
  - `main_app_mejorado.py` (the improved variant), modelled in namespace `Mejorado`.

Modelling conventions of this shallow embedding:
  - The CrewAI framework objects (`LLM`, `Agent`, `Task`, `Crew`) are modelled as
    plain data; `crew.kickoff()` is an external call, so its outcome is an
    oracle (`Except String String`) in an environment record, as are the other
    fallible external calls (LLM configuration in the improved variant, audio
    capture and Whisper transcription, filesystem operations).
  - A `QThread.run` body is modelled as a pure function from its inputs and the
    environment to a trace: the list of Qt signals it emits, the crews it
    constructs, the number of `kickoff` invocations, and the final filesystem
    state.
  - Filesystem paths are lists of path components (so `os.path.join a b`
    appends a component and `os.path.relpath p d` drops `d.length` leading
    components); the filesystem is a record of directories, text files and zip
    archives, and each `create_plugin_package` filesystem operation is numbered
    so that the environment can make any single one of them raise.
  - The GUI widget state is a record of the fields the claims talk about
    (button enabled flags, progress-bar visibility, console/error output, and
    the worker objects); constructing a `QThread` object is modelled as
    allocating a fresh numeric id, recorded in `created`, and `thread.start()`
    records the id in `started`.  Messages appended to the console keep their
    text but drop emoji/HTML markup, and the multi-line Python prompt strings
    keep their line text without the surrounding indentation whitespace.
-/

/-- Python `str.strip()` whitespace test (ASCII whitespace as in CPython). -/
def isPySpace (c : Char) : Bool :=
  c == ' ' || c == '\t' || c == '\n' || c == '\r' || c == Char.ofNat 11 || c == Char.ofNat 12

/-- Python `str.strip()`: drop whitespace from both ends. -/
def pyStrip (s : String) : String :=
  String.mk (((s.data.dropWhile isPySpace).reverse.dropWhile isPySpace).reverse)

namespace CrewAI

/-- `crewai.llm.LLM(model=..., base_url=...)` configuration object. -/
structure LLM where
  model : String
  base_url : String
deriving Repr

/-- `crewai.Agent(...)` as constructed by both variants. -/
structure Agent where
  role : String
  goal : String
  backstory : String
  verbose : Bool
  allow_delegation : Bool
  llm : LLM

/-- `crewai.Task(...)`; `context` is the list of tasks whose output is handed
to this task, exactly as passed to the `context=` keyword. -/
inductive Task where
  | mk (description : String) (agent : Agent) (expected_output : String)
       (context : List Task)

/-- The `description` field of a task. -/
def Task.description : Task → String
  | .mk d _ _ _ => d

/-- The `agent` field of a task. -/
def Task.agent : Task → Agent
  | .mk _ a _ _ => a

/-- The `expected_output` field of a task. -/
def Task.expected_output : Task → String
  | .mk _ _ e _ => e

/-- The `context` field of a task. -/
def Task.context : Task → List Task
  | .mk _ _ _ c => c

/-- `crewai.Crew(agents=..., tasks=..., verbose=...)`. -/
structure Crew where
  agents : List Agent
  tasks : List Task
  verbose : Bool

end CrewAI

/-- A filesystem path, as a list of components. -/
abbrev FsPath := List String

/-- The filesystem state visible to the program: directories, text files and
zip archives (a zip archive is its path together with its entries, each entry
being an archive-internal path and the entry's text). -/
structure FSState where
  dirs : List FsPath
  files : List (FsPath × String)
  zips : List (FsPath × List (FsPath × String))

namespace MainApp

/-- Qt signals emitted by the basic variant's `PluginGenerator` thread:
`progress = pyqtSignal(str)`, `finished = pyqtSignal(str)`,
`error = pyqtSignal(str)`. -/
inductive Event where
  | progress (msg : String)
  | finished (result : String)
  | error (msg : String)
deriving DecidableEq

/-- Whether an event is a terminal signal (finished or error). -/
def Event.isTerminal : Event → Bool
  | .progress _ => false
  | .finished _ => true
  | .error _ => true

/-- The message of a progress event, if any. -/
def Event.progressMsg? : Event → Option String
  | .progress m => some m
  | _ => none

/-- The payload of a finished event, if any. -/
def Event.finishedMsg? : Event → Option String
  | .finished r => some r
  | _ => none

/-- The message of an error event, if any. -/
def Event.errorMsg? : Event → Option String
  | .error m => some m
  | _ => none

/-- The progress messages of a signal trace, in emission order. -/
def progressMsgs (evs : List Event) : List String :=
  evs.filterMap Event.progressMsg?

/-- Number of terminal (finished or error) signals in a trace. -/
def terminalCount (evs : List Event) : Nat :=
  (evs.filter Event.isTerminal).length

/-- The trace is nonempty and its final signal is terminal. -/
def endsTerminal (evs : List Event) : Prop :=
  ∃ pre t, evs = pre ++ [t] ∧ Event.isTerminal t = true

/-- External-world oracle for `PluginGenerator.run`: the outcome of
`crew.kickoff()` (the only external call in the basic variant's `run`). -/
structure Env where
  kickoff : Except String String

/-- Observable outcome of one execution of `PluginGenerator.run`. -/
structure Trace where
  events : List Event
  crews : List CrewAI.Crew
  kickoffCalls : Nat
  fs : FSState

/-- `LLM(model="ollama/llama3:8b", base_url="http://localhost:11434")`. -/
def llm : CrewAI.LLM :=
  { model := "ollama/llama3:8b", base_url := "http://localhost:11434" }

/-- The `planner_agent` of `main_app.py`. -/
def planner_agent : CrewAI.Agent :=
  { role := "Analista de Requisitos"
    goal := "Analizar la petición del usuario y crear un plan técnico detallado para el plugin de QGIS"
    backstory := "Eres un experto analista de software especializado en QGIS y PyQGIS.\nTu trabajo es descomponer las peticiones de los usuarios en planes técnicos específicos\nque incluyan las funciones de PyQGIS necesarias, la estructura de archivos del plugin\ny los elementos de la interfaz de usuario."
    verbose := true
    allow_delegation := false
    llm := llm }

/-- The `coder_agent` of `main_app.py`. -/
def coder_agent : CrewAI.Agent :=
  { role := "Desarrollador de QGIS"
    goal := "Escribir el código Python completo para el plugin de QGIS basándose en el plan técnico"
    backstory := "Eres un desarrollador senior especializado en PyQGIS con amplio conocimiento\nde la API de QGIS, la estructura de plugins y las mejores prácticas de desarrollo.\nPuedes generar código completo y funcional para plugins de QGIS."
    verbose := true
    allow_delegation := false
    llm := llm }

/-- The `reviewer_agent` of `main_app.py`. -/
def reviewer_agent : CrewAI.Agent :=
  { role := "Revisor de Código y Empaquetador"
    goal := "Revisar el código generado, asegurar su calidad y empaquetarlo para despliegue"
    backstory := "Eres un experto en control de calidad de software y empaquetado de plugins de QGIS.\nTu trabajo es revisar el código en busca de errores, asegurar que sigue las mejores prácticas\ny crear el paquete final listo para instalación."
    verbose := true
    allow_delegation := false
    llm := llm }

/-- The `planning_task` of `main_app.py`; its description interpolates the
user request (Python f-string). -/
def planning_task (user_request : String) : CrewAI.Task :=
  .mk ("Analiza la siguiente petición del usuario y crea un plan técnico detallado:\n\nPETICIÓN: " ++ user_request ++ "\n\nTu plan debe incluir:\n1. Descripción funcional del plugin\n2. Funciones de PyQGIS necesarias\n3. Estructura de archivos del plugin\n4. Elementos de la interfaz de usuario\n5. Pasos específicos para el desarrollo\n\nProporciona un plan claro y estructurado que el desarrollador pueda seguir.")
    planner_agent
    "Un plan técnico detallado con todos los componentes necesarios para el plugin"
    []

/-- The `coding_task` of `main_app.py`: `context=[planning_task]`. -/
def coding_task (user_request : String) : CrewAI.Task :=
  .mk "Basándote en el plan técnico proporcionado, genera el código completo para el plugin de QGIS.\n\nDebes crear los siguientes archivos:\n1. metadata.txt - Metadatos del plugin\n2. __init__.py - Inicialización del plugin\n3. main_plugin.py - Lógica principal del plugin\n4. plugin_dialog.ui - Interfaz de usuario (si es necesaria)\n5. resources.qrc - Recursos del plugin (si es necesario)\n\nAsegúrate de que el código:\n- Siga las convenciones de PyQGIS\n- Sea funcional y completo\n- Incluya manejo de errores\n- Tenga comentarios explicativos"
    coder_agent
    "Código completo del plugin con todos los archivos necesarios"
    [planning_task user_request]

/-- The `review_task` of `main_app.py`: `context=[planning_task, coding_task]`. -/
def review_task (user_request : String) : CrewAI.Task :=
  .mk "Revisa el código generado y crea el paquete final del plugin.\n\nTareas a realizar:\n1. Revisar el código en busca de errores de sintaxis y lógicos\n2. Verificar que sigue la estructura correcta de un plugin de QGIS\n3. Crear una carpeta con el nombre del plugin\n4. Organizar todos los archivos en la carpeta\n5. Crear un archivo ZIP listo para instalación\n6. Proporcionar instrucciones de instalación\n\nEntrega el resultado final con la ruta del archivo ZIP y las instrucciones."
    reviewer_agent
    "Plugin empaquetado en ZIP con instrucciones de instalación"
    [planning_task user_request, coding_task user_request]

/-- `Crew(agents=[planner_agent, coder_agent, reviewer_agent],
tasks=[planning_task, coding_task, review_task], verbose=True)`. -/
def theCrew (user_request : String) : CrewAI.Crew :=
  { agents := [planner_agent, coder_agent, reviewer_agent]
    tasks := [planning_task user_request, coding_task user_request, review_task user_request]
    verbose := true }

namespace PluginGenerator

/-- `PluginGenerator.run` of `main_app.py` (lines 125-247): emit three progress
signals, build the crew, call `kickoff`, then emit `finished(str(result))`; the
whole body is wrapped in a `try/except` that emits one error signal.  The
basic variant performs no filesystem operations, so the filesystem state is
passed through unchanged. -/
def run (user_request : String) (env : Env) (st : FSState) : Trace :=
  let evs := [Event.progress "Inicializando sistema multiagente...",
              Event.progress "Creando equipo de agentes...",
              Event.progress "Ejecutando generación del plugin..."]
  let crew := theCrew user_request
  match env.kickoff with
  | .ok result =>
      { events := evs ++ [Event.finished result]
        crews := [crew], kickoffCalls := 1, fs := st }
  | .error e =>
      { events := evs ++ [Event.error ("Error en la generación del plugin: " ++ e)]
        crews := [crew], kickoffCalls := 1, fs := st }

end PluginGenerator

/-- The GUI state of the basic variant (the fields the claims are about). -/
structure UIState where
  textInput : String
  generateEnabled : Bool
  recordEnabled : Bool
  progressVisible : Bool
  console : List String
  errors : List String
  plugin_generator : Option Nat
  audio_recorder : Option Nat
  recorderRecording : Bool
  nextId : Nat
  created : List Nat
  started : List Nat

/-- `QGISPluginGenerator.show_error`: append to the console and show a
critical message box (recorded in `errors`). -/
def show_error (message : String) (s : UIState) : UIState :=
  { s with console := s.console ++ ["Error: " ++ message]
           errors := s.errors ++ [message] }

/-- `QGISPluginGenerator.generate_plugin` of `main_app.py` (lines 399-423). -/
def generate_plugin (s : UIState) : UIState :=
  let user_request := pyStrip s.textInput
  if user_request = "" then
    show_error "Por favor, ingresa una descripción del plugin que deseas crear." s
  else
    { s with generateEnabled := false
             recordEnabled := false
             progressVisible := true
             console := s.console ++
               ["Iniciando generación del plugin...", "Petición: " ++ user_request]
             plugin_generator := some s.nextId
             nextId := s.nextId + 1
             created := s.created ++ [s.nextId]
             started := s.started ++ [s.nextId] }

/-- `QGISPluginGenerator.start_recording` of `main_app.py` (lines 354-366):
construct a fresh `AudioRecorder`, connect its signals, and start it. -/
def start_recording (s : UIState) : UIState :=
  { s with audio_recorder := some s.nextId
           recorderRecording := true
           console := s.console ++ ["Iniciando grabación de audio..."]
           nextId := s.nextId + 1
           created := s.created ++ [s.nextId]
           started := s.started ++ [s.nextId] }

/-- `QGISPluginGenerator.on_generation_finished` of `main_app.py`. -/
def on_generation_finished (result : String) (s : UIState) : UIState :=
  { s with generateEnabled := true
           recordEnabled := true
           progressVisible := false
           console := s.console ++ ["¡Plugin generado exitosamente!", result] }

/-- `QGISPluginGenerator.on_generation_error` of `main_app.py`. -/
def on_generation_error (err : String) (s : UIState) : UIState :=
  show_error ("Error en la generación: " ++ err)
    { s with generateEnabled := true
             recordEnabled := true
             progressVisible := false }

/-- Worker ids already handed out are below the allocation counter. -/
def FreshIds (s : UIState) : Prop :=
  ∀ i ∈ s.created, i < s.nextId

end MainApp

namespace Mejorado

/-- The module-level availability flags of `main_app_mejorado.py`:
`AUDIO_AVAILABLE` (pyaudio + whisper import) and `CREWAI_AVAILABLE`
(crewai import). -/
structure Globals where
  audioAvailable : Bool
  crewaiAvailable : Bool

/-- Qt signals of the improved variant's `PluginGenerator`:
`progress = pyqtSignal(str)`, `finished = pyqtSignal(str, str)` (result text
and zip path, the latter `None` when packaging failed), `error = pyqtSignal(str)`. -/
inductive Event where
  | progress (msg : String)
  | finished (result : String) (zip_path : Option FsPath)
  | error (msg : String)
deriving DecidableEq

/-- Whether an event is a terminal signal (finished or error). -/
def Event.isTerminal : Event → Bool
  | .progress _ => false
  | .finished _ _ => true
  | .error _ => true

/-- The message of a progress event, if any. -/
def Event.progressMsg? : Event → Option String
  | .progress m => some m
  | _ => none

/-- The payload of a finished event, if any. -/
def Event.finishedMsg? : Event → Option (String × Option FsPath)
  | .finished r z => some (r, z)
  | _ => none

/-- The message of an error event, if any. -/
def Event.errorMsg? : Event → Option String
  | .error m => some m
  | _ => none

/-- The progress messages of a signal trace, in emission order. -/
def progressMsgs (evs : List Event) : List String :=
  evs.filterMap Event.progressMsg?

/-- Number of terminal (finished or error) signals in a trace. -/
def terminalCount (evs : List Event) : Nat :=
  (evs.filter Event.isTerminal).length

/-- The trace is nonempty and its final signal is terminal. -/
def endsTerminal (evs : List Event) : Prop :=
  ∃ pre t, evs = pre ++ [t] ∧ Event.isTerminal t = true

/-- External behaviour of `create_plugin_package`'s filesystem calls:
the timestamp `datetime.now().strftime("%Y%m%d_%H%M%S")`, the current working
directory, the directory returned by `tempfile.mkdtemp()`, and optionally the
index of the filesystem operation that raises an exception (the operations are
numbered 0 `mkdtemp`, 1 `makedirs`, 2 write `resultado.txt`, 3 build the zip,
4 `rmtree`). -/
structure PkgEnv where
  timestamp : String
  cwd : FsPath
  tmpDir : FsPath
  failStep : Option Nat

/-- External-world oracle for the improved `PluginGenerator.run`:
`LLM(...)` configuration (separately caught in the source), `crew.kickoff()`,
and the packaging filesystem environment. -/
structure Env where
  llm : Except String Unit
  kickoff : Except String String
  pkg : PkgEnv

/-- Observable outcome of one execution of the improved `PluginGenerator.run`. -/
structure Trace where
  events : List Event
  crews : List CrewAI.Crew
  kickoffCalls : Nat
  fs : FSState

/-- `LLM(model="ollama/llama3:8b", base_url="http://localhost:11434")`. -/
def llm : CrewAI.LLM :=
  { model := "ollama/llama3:8b", base_url := "http://localhost:11434" }

/-- The `planner_agent` of `main_app_mejorado.py`. -/
def planner_agent : CrewAI.Agent :=
  { role := "Analista de Requisitos para QGIS"
    goal := "Analizar peticiones de usuarios y crear planes técnicos detallados para plugins de QGIS"
    backstory := "Eres un experto analista de software especializado en QGIS y PyQGIS con más de 10 años de experiencia.\nConoces profundamente la API de QGIS, las mejores prácticas de desarrollo de plugins y las necesidades comunes de los usuarios de SIG.\nTu trabajo es descomponer las peticiones de los usuarios en planes técnicos específicos y factibles."
    verbose := true
    allow_delegation := false
    llm := llm }

/-- The `coder_agent` of `main_app_mejorado.py`. -/
def coder_agent : CrewAI.Agent :=
  { role := "Desarrollador Senior de PyQGIS"
    goal := "Escribir código Python completo y funcional para plugins de QGIS"
    backstory := "Eres un desarrollador senior con experiencia extensa en PyQGIS, Qt, y desarrollo de plugins para QGIS.\nConoces las mejores prácticas de programación, manejo de errores, y optimización de rendimiento.\nPuedes generar código limpio, bien documentado y siguiendo los estándares de la comunidad QGIS."
    verbose := true
    allow_delegation := false
    llm := llm }

/-- The `reviewer_agent` of `main_app_mejorado.py`. -/
def reviewer_agent : CrewAI.Agent :=
  { role := "Revisor de Código y Especialista en Empaquetado"
    goal := "Revisar código, asegurar calidad y crear paquetes de distribución"
    backstory := "Eres un experto en control de calidad de software y empaquetado de plugins de QGIS.\nTu experiencia incluye testing, debugging, y distribución de software.\nAseguras que el código sea robusto, seguro y fácil de instalar."
    verbose := true
    allow_delegation := false
    llm := llm }

/-- The `planning_task` of `main_app_mejorado.py`; the description
interpolates the user request and the configuration dictionary's repr. -/
def planning_task (user_request plugin_config : String) : CrewAI.Task :=
  .mk ("Analiza la siguiente petición del usuario y crea un plan técnico detallado para un plugin de QGIS:\n\nPETICIÓN DEL USUARIO: " ++ user_request ++ "\n\nCONFIGURACIÓN ADICIONAL: " ++ plugin_config ++ "\n\nTu plan debe incluir:\n1. Análisis funcional del plugin solicitado\n2. Identificación de las clases y métodos de PyQGIS necesarios\n3. Estructura de archivos del plugin (metadata.txt, __init__.py, main_plugin.py, etc.)\n4. Diseño de la interfaz de usuario (botones, menús, diálogos)\n5. Flujo de trabajo y lógica de procesamiento\n6. Manejo de errores y validaciones necesarias\n7. Consideraciones de rendimiento y optimización\n\nProporciona un plan estructurado y detallado que sirva como guía completa para el desarrollo.")
    planner_agent
    "Un plan técnico completo y detallado con todos los componentes necesarios para el plugin"
    []

/-- The `coding_task` of `main_app_mejorado.py`: `context=[planning_task]`. -/
def coding_task (user_request plugin_config : String) : CrewAI.Task :=
  .mk "Basándote en el plan técnico proporcionado, genera el código completo para el plugin de QGIS.\n\nDebes crear los siguientes archivos con código funcional:\n\n1. **metadata.txt** - Metadatos del plugin con información completa\n2. **__init__.py** - Inicialización del plugin\n3. **main_plugin.py** - Clase principal del plugin con toda la lógica\n4. **plugin_dialog.py** - Diálogo de la interfaz de usuario (si es necesario)\n5. **plugin_dialog.ui** - Archivo de interfaz Qt Designer (si es necesario)\n6. **resources.qrc** - Archivo de recursos (si es necesario)\n7. **icon.png** - Descripción del icono necesario\n\nRequisitos del código:\n- Debe seguir las convenciones de PyQGIS y PEP 8\n- Incluir manejo robusto de errores\n- Comentarios explicativos en español\n- Validación de entrada de datos\n- Compatibilidad con QGIS 3.x\n- Código modular y mantenible\n\nAsegúrate de que el código sea completo y funcional."
    coder_agent
    "Código completo del plugin con todos los archivos necesarios y funcionalidad implementada"
    [planning_task user_request plugin_config]

/-- The `review_task` of `main_app_mejorado.py`:
`context=[planning_task, coding_task]`. -/
def review_task (user_request plugin_config : String) : CrewAI.Task :=
  .mk "Revisa el código generado, mejóralo si es necesario y crea el paquete final del plugin.\n\nTareas de revisión:\n1. Revisar sintaxis y lógica del código\n2. Verificar compatibilidad con QGIS 3.x\n3. Validar estructura del plugin\n4. Mejorar comentarios y documentación\n5. Optimizar rendimiento si es posible\n\nTareas de empaquetado:\n1. Crear carpeta del plugin con nombre apropiado\n2. Organizar todos los archivos correctamente\n3. Crear archivo ZIP para instalación\n4. Generar instrucciones de instalación detalladas\n5. Crear documentación de uso del plugin\n\nProporciona el resultado final con la estructura completa del plugin."
    reviewer_agent
    "Plugin revisado, empaquetado en ZIP con instrucciones completas de instalación y uso"
    [planning_task user_request plugin_config, coding_task user_request plugin_config]

/-- `Crew(agents=[planner_agent, coder_agent, reviewer_agent],
tasks=[planning_task, coding_task, review_task], verbose=True)`. -/
def theCrew (user_request plugin_config : String) : CrewAI.Crew :=
  { agents := [planner_agent, coder_agent, reviewer_agent]
    tasks := [planning_task user_request plugin_config,
              coding_task user_request plugin_config,
              review_task user_request plugin_config]
    verbose := true }

namespace PluginGenerator

/-- `PluginGenerator.create_plugin_package` of `main_app_mejorado.py`
(lines 312-343): stage a directory `qgis_plugin_<timestamp>` inside a fresh
temporary directory, write the whole result text to `resultado.txt` in it,
walk the staged directory into `<cwd>/qgis_plugin_<timestamp>.zip` with entry
names relative to the temporary directory, remove the temporary directory, and
return the zip path; any exception is caught and `None` is returned instead. -/
def create_plugin_package (env : PkgEnv) (st : FSState) (result_text : String) :
    Option FsPath × FSState :=
  let plugin_name := "qgis_plugin_" ++ env.timestamp
  -- op 0: temp_dir = tempfile.mkdtemp()
  if env.failStep = some 0 then (none, st) else
  let temp_dir := env.tmpDir
  let st := { st with dirs := st.dirs ++ [temp_dir] }
  -- op 1: os.makedirs(plugin_dir)
  if env.failStep = some 1 then (none, st) else
  let plugin_dir := temp_dir ++ [plugin_name]
  let st := { st with dirs := st.dirs ++ [plugin_dir] }
  -- op 2: open(os.path.join(plugin_dir, "resultado.txt"), "w").write(result_text)
  if env.failStep = some 2 then (none, st) else
  let st := { st with files := st.files ++ [(plugin_dir ++ ["resultado.txt"], result_text)] }
  -- op 3: zipfile.ZipFile(zip_path, "w") + os.walk(plugin_dir) writes,
  -- arcname = os.path.relpath(file_path, temp_dir)
  if env.failStep = some 3 then (none, st) else
  let zip_path := env.cwd ++ [plugin_name ++ ".zip"]
  let entries := (st.files.filter (fun f => plugin_dir.isPrefixOf f.1)).map
    (fun f => (f.1.drop temp_dir.length, f.2))
  let st := { st with zips := st.zips ++ [(zip_path, entries)] }
  -- op 4: shutil.rmtree(temp_dir)
  if env.failStep = some 4 then (none, st) else
  let st := { st with
    dirs := st.dirs.filter (fun d => !(temp_dir.isPrefixOf d))
    files := st.files.filter (fun f => !(temp_dir.isPrefixOf f.1)) }
  (some zip_path, st)

/-- `PluginGenerator.run` of `main_app_mejorado.py` (lines 165-310): guard on
`CREWAI_AVAILABLE`; emit the first progress signal; configure the LLM inside
its own `try/except` (error signal and early return on failure); build the
agents, tasks and crew, emitting the second and third progress signals; call
`kickoff`; package the result; emit `finished(str(result), zip_path)`.  The
outer `try/except` emits one error signal for any other exception. -/
def run (g : Globals) (user_request plugin_config : String) (env : Env)
    (st : FSState) : Trace :=
  if g.crewaiAvailable = false then
    { events := [Event.error "CrewAI no está disponible. Instala crewai."]
      crews := [], kickoffCalls := 0, fs := st }
  else
    match env.llm with
    | .error e =>
        { events := [Event.progress "Inicializando sistema multiagente...",
                     Event.error ("Error conectando con Ollama: " ++ e)]
          crews := [], kickoffCalls := 0, fs := st }
    | .ok _ =>
        let crew := theCrew user_request plugin_config
        let evs := [Event.progress "Inicializando sistema multiagente...",
                    Event.progress "Creando equipo de agentes...",
                    Event.progress "Ejecutando generación del plugin..."]
        match env.kickoff with
        | .error e =>
            { events := evs ++ [Event.error ("Error en la generación del plugin: " ++ e)]
              crews := [crew], kickoffCalls := 1, fs := st }
        | .ok result =>
            let pk := create_plugin_package env.pkg st result
            { events := evs ++ [Event.finished result pk.1]
              crews := [crew], kickoffCalls := 1, fs := pk.2 }

end PluginGenerator

/-- Signals of the improved variant's `AudioRecorder` thread. -/
inductive AudioEvent where
  | finished (text : String)
  | error (msg : String)
deriving DecidableEq

/-- External-world oracle for `AudioRecorder.run`: an exception in the
recording path, and the outcome of the Whisper transcription. -/
structure AudioEnv where
  recordFail : Option String
  transcription : Except String String

/-- Observable outcome of one execution of `AudioRecorder.run`: the signals it
emitted and whether any audio capture was performed. -/
structure AudioTrace where
  events : List AudioEvent
  recorded : Bool

namespace AudioRecorder

/-- `AudioRecorder.run` of `main_app_mejorado.py` (lines 79-144): when
`AUDIO_AVAILABLE` is false, emit one error signal and return without touching
the microphone; otherwise record, transcribe with Whisper, and emit either the
transcription or an error signal. -/
def run (g : Globals) (env : AudioEnv) : AudioTrace :=
  if g.audioAvailable = false then
    { events := [AudioEvent.error "Audio no disponible. Instala pyaudio y whisper."]
      recorded := false }
  else
    match env.recordFail with
    | some e => { events := [AudioEvent.error e], recorded := false }
    | none =>
        match env.transcription with
        | .ok t => { events := [AudioEvent.finished t], recorded := true }
        | .error e =>
            { events := [AudioEvent.error ("Error en transcripción: " ++ e)]
              recorded := true }

end AudioRecorder

/-- The GUI state of the improved variant (the fields the claims are about). -/
structure UIState where
  textInput : String
  generateEnabled : Bool
  recordEnabled : Bool
  saveEnabled : Bool
  progressVisible : Bool
  status : String
  console : List String
  errors : List String
  plugin_generator : Option Nat
  audio_recorder : Option Nat
  recorderRecording : Bool
  generated_plugins : List (Option FsPath)
  nextId : Nat
  created : List Nat
  started : List Nat

/-- The GUI state right after `init_ui`/`create_main_tab`:
`record_button.setEnabled(AUDIO_AVAILABLE)`,
`generate_button.setEnabled(CREWAI_AVAILABLE)`, save disabled, progress bar
hidden. -/
def initState (g : Globals) : UIState :=
  { textInput := ""
    generateEnabled := g.crewaiAvailable
    recordEnabled := g.audioAvailable
    saveEnabled := false
    progressVisible := false
    status := "Listo para generar plugins de QGIS"
    console := []
    errors := []
    plugin_generator := none
    audio_recorder := none
    recorderRecording := false
    generated_plugins := []
    nextId := 0
    created := []
    started := [] }

/-- `QGISPluginGenerator.show_error` of the improved variant. -/
def show_error (message : String) (s : UIState) : UIState :=
  { s with console := s.console ++ ["Error: " ++ message]
           errors := s.errors ++ [message] }

/-- `QGISPluginGenerator.generate_plugin` of `main_app_mejorado.py`
(lines 787-832).  `shortReplyYes` is the user's answer to the confirmation
dialog shown for requests shorter than 20 characters; `plugin_config` is the
repr of `self.config_widget.get_config()`. -/
def generate_plugin (g : Globals) (shortReplyYes : Bool) (plugin_config : String)
    (s : UIState) : UIState :=
  if g.crewaiAvailable = false then
    show_error "CrewAI no está disponible. Instala crewai para usar esta funcionalidad." s
  else
    let user_request := pyStrip s.textInput
    if user_request = "" then
      show_error "Por favor, ingresa una descripción del plugin que deseas crear." s
    else if user_request.length < 20 ∧ shortReplyYes = false then
      s
    else
      { s with generateEnabled := false
               recordEnabled := false
               saveEnabled := false
               progressVisible := true
               status := "Generando plugin..."
               console := s.console ++
                 ["Iniciando generación del plugin...",
                  "Petición: " ++ user_request,
                  "Configuración: " ++ plugin_config]
               plugin_generator := some s.nextId
               nextId := s.nextId + 1
               created := s.created ++ [s.nextId]
               started := s.started ++ [s.nextId] }

/-- `QGISPluginGenerator.start_recording` of the improved variant. -/
def start_recording (s : UIState) : UIState :=
  { s with audio_recorder := some s.nextId
           recorderRecording := true
           console := s.console ++ ["Iniciando grabación de audio..."]
           status := "Grabando audio..."
           nextId := s.nextId + 1
           created := s.created ++ [s.nextId]
           started := s.started ++ [s.nextId] }

/-- `QGISPluginGenerator.stop_recording` of the improved variant. -/
def stop_recording (s : UIState) : UIState :=
  if s.audio_recorder.isSome ∧ s.recorderRecording = true then
    { s with recorderRecording := false
             console := s.console ++ ["Deteniendo grabación y transcribiendo..."]
             status := "Transcribiendo audio..." }
  else s

/-- `QGISPluginGenerator.toggle_recording` of `main_app_mejorado.py`
(lines 694-703): refuse with an error when `AUDIO_AVAILABLE` is false;
otherwise start a recording session unless one is already active. -/
def toggle_recording (g : Globals) (s : UIState) : UIState :=
  if g.audioAvailable = false then
    show_error "Funcionalidad de audio no disponible. Instala pyaudio y whisper." s
  else if s.audio_recorder = none ∨ s.recorderRecording = false then
    start_recording s
  else
    stop_recording s

/-- `QGISPluginGenerator.on_generation_finished` of `main_app_mejorado.py`
(lines 839-873): re-enable generate, re-enable record only when audio is
available, enable save, hide the progress bar, log the result and append to
the history. -/
def on_generation_finished (g : Globals) (result : String)
    (zip_path : Option FsPath) (s : UIState) : UIState :=
  { s with generateEnabled := true
           recordEnabled := g.audioAvailable
           saveEnabled := true
           progressVisible := false
           status := "Plugin generado exitosamente"
           console := s.console ++ ["¡Plugin generado exitosamente!", result]
           generated_plugins := s.generated_plugins ++ [zip_path] }

/-- `QGISPluginGenerator.on_generation_error` of `main_app_mejorado.py`
(lines 875-882). -/
def on_generation_error (g : Globals) (err : String) (s : UIState) : UIState :=
  show_error ("Error en la generación: " ++ err)
    { s with generateEnabled := true
             recordEnabled := g.audioAvailable
             progressVisible := false
             status := "Error en la generación" }

/-- Worker ids already handed out are below the allocation counter. -/
def FreshIds (s : UIState) : Prop :=
  ∀ i ∈ s.created, i < s.nextId

end Mejorado

/-- An empty filesystem, used as a concrete starting state. -/
def fs0 : FSState := { dirs := [], files := [], zips := [] }

/-- A concrete packaging environment in which no filesystem call raises. -/
def pkg0 : Mejorado.PkgEnv :=
  { timestamp := "20250101_120000", cwd := ["home", "user"]
    tmpDir := ["tmp", "tmpabc123"], failStep := none }

/-- A concrete packaging environment in which the zip-building step raises. -/
def pkgZipFail : Mejorado.PkgEnv :=
  { timestamp := "20250101_120000", cwd := ["home", "user"]
    tmpDir := ["tmp", "tmpabc123"], failStep := some 3 }

/-- A list is a `isPrefixOf`-prefix of itself followed by anything. -/
theorem isPrefixOf_append_self (l t : List String) : l.isPrefixOf (l ++ t) = true := by
  induction l with
  | nil => simp [List.isPrefixOf]
  | cons a as ih => simp [List.isPrefixOf, ih]

/-- A list is a `isPrefixOf`-prefix of itself. -/
theorem isPrefixOf_self (l : List String) : l.isPrefixOf l = true := by
  have h := isPrefixOf_append_self l []
  rwa [List.append_nil] at h

/-- If an extension of `l` is a prefix of `p`, so is `l`. -/
theorem isPrefixOf_of_append_left (l t p : List String)
    (h : (l ++ t).isPrefixOf p = true) : l.isPrefixOf p = true := by
  induction l generalizing p with
  | nil => simp [List.isPrefixOf]
  | cons a as ih =>
    cases p with
    | nil => simp [List.isPrefixOf] at h
    | cons b bs =>
      simp only [List.cons_append, List.isPrefixOf, Bool.and_eq_true] at h ⊢
      exact ⟨h.1, ih bs h.2⟩

/-- `create_plugin_package` when no filesystem call raises: it returns the
path `<cwd>/qgis_plugin_<timestamp>.zip`, the new archive's only entry is
`qgis_plugin_<timestamp>/resultado.txt` holding exactly the result text, and
the temporary staging directory (and everything in it) is removed, leaving the
rest of the filesystem as it was.  The hypotheses say that `mkdtemp` returned
a directory disjoint from the existing filesystem. -/
theorem create_plugin_package_success (env : Mejorado.PkgEnv) (st : FSState)
    (text : String)
    (hnone : env.failStep = none)
    (hfiles : ∀ f ∈ st.files, env.tmpDir.isPrefixOf f.1 = false)
    (hdirs : ∀ d ∈ st.dirs, env.tmpDir.isPrefixOf d = false) :
    Mejorado.PluginGenerator.create_plugin_package env st text =
      (some (env.cwd ++ ["qgis_plugin_" ++ env.timestamp ++ ".zip"]),
       { dirs := st.dirs, files := st.files,
         zips := st.zips ++ [(env.cwd ++ ["qgis_plugin_" ++ env.timestamp ++ ".zip"],
           [(["qgis_plugin_" ++ env.timestamp, "resultado.txt"], text)])] }) := by
  have hfilter1 : st.files.filter
      (fun f => !(env.tmpDir.isPrefixOf f.1)) = st.files := by
    refine List.filter_eq_self.mpr ?_
    intro a ha
    rw [hfiles a ha]
    rfl
  have hfilter2 : st.dirs.filter (fun d => !(env.tmpDir.isPrefixOf d)) = st.dirs := by
    refine List.filter_eq_self.mpr ?_
    intro a ha
    rw [hdirs a ha]
    rfl
  have hfilter3 : st.files.filter
      (fun f => (env.tmpDir ++ ["qgis_plugin_" ++ env.timestamp]).isPrefixOf f.1) = [] := by
    refine List.filter_eq_nil_iff.mpr ?_
    intro a ha hp
    have := isPrefixOf_of_append_left env.tmpDir ["qgis_plugin_" ++ env.timestamp] a.1 hp
    rw [hfiles a ha] at this
    cases this
  simp only [Mejorado.PluginGenerator.create_plugin_package, hnone,
    List.filter_append, List.append_assoc]
  norm_num
  simp only [List.filter_cons, List.filter_nil, isPrefixOf_self,
    isPrefixOf_append_self, Bool.not_true, Bool.false_eq_true, if_false,
    List.append_nil, hfilter1, hfilter2, hfilter3, List.map_cons, List.map_nil,
    List.drop_left, List.nil_append]
  simp

/-- `create_plugin_package` when the filesystem call numbered `k < 5` raises:
the exception is caught and `None` is returned. -/
theorem create_plugin_package_fail (env : Mejorado.PkgEnv) (st : FSState)
    (text : String) (k : Nat) (hk : env.failStep = some k) (hk5 : k < 5) :
    (Mejorado.PluginGenerator.create_plugin_package env st text).1 = none := by
  interval_cases k <;>
    simp [Mejorado.PluginGenerator.create_plugin_package, hk]

/-- Claim C1: in both variants, the coding task's context is exactly the
planning task and the review task's context is exactly the planning task
followed by the coding task (and the planning task itself has no context):
the planner's output feeds the coder, and both feed the reviewer. -/
theorem c1_context_handoff (user_request plugin_config : String) :
    (MainApp.planning_task user_request).context = [] ∧
    (MainApp.coding_task user_request).context = [MainApp.planning_task user_request] ∧
    (MainApp.review_task user_request).context =
      [MainApp.planning_task user_request, MainApp.coding_task user_request] ∧
    (Mejorado.planning_task user_request plugin_config).context = [] ∧
    (Mejorado.coding_task user_request plugin_config).context =
      [Mejorado.planning_task user_request plugin_config] ∧
    (Mejorado.review_task user_request plugin_config).context =
      [Mejorado.planning_task user_request plugin_config,
       Mejorado.coding_task user_request plugin_config] :=
  ⟨rfl, rfl, rfl, rfl, rfl, rfl⟩

/-- Claim C2: in both variants, each generation run builds exactly one crew,
whose agents are exactly `[planner, coder, reviewer]` and whose tasks are
exactly `[planning, coding, review]` in that order, and invokes `kickoff`
exactly once (for the improved variant this is stated for runs where CrewAI is
available and the LLM was configured, since that variant aborts before
building the crew otherwise). -/
theorem c2_three_stage_pipeline (user_request plugin_config : String)
    (audio : Bool) (kick : Except String String) (pkg : Mejorado.PkgEnv)
    (st : FSState) :
    (MainApp.PluginGenerator.run user_request ⟨kick⟩ st).crews =
      [MainApp.theCrew user_request] ∧
    (MainApp.PluginGenerator.run user_request ⟨kick⟩ st).kickoffCalls = 1 ∧
    (MainApp.theCrew user_request).agents =
      [MainApp.planner_agent, MainApp.coder_agent, MainApp.reviewer_agent] ∧
    (MainApp.theCrew user_request).tasks =
      [MainApp.planning_task user_request, MainApp.coding_task user_request,
       MainApp.review_task user_request] ∧
    (Mejorado.PluginGenerator.run ⟨audio, true⟩ user_request plugin_config
        ⟨Except.ok (), kick, pkg⟩ st).crews =
      [Mejorado.theCrew user_request plugin_config] ∧
    (Mejorado.PluginGenerator.run ⟨audio, true⟩ user_request plugin_config
        ⟨Except.ok (), kick, pkg⟩ st).kickoffCalls = 1 ∧
    (Mejorado.theCrew user_request plugin_config).agents =
      [Mejorado.planner_agent, Mejorado.coder_agent, Mejorado.reviewer_agent] ∧
    (Mejorado.theCrew user_request plugin_config).tasks =
      [Mejorado.planning_task user_request plugin_config,
       Mejorado.coding_task user_request plugin_config,
       Mejorado.review_task user_request plugin_config] := by
  cases kick <;>
    exact ⟨rfl, rfl, rfl, rfl, rfl, rfl, rfl, rfl⟩

/-- Claim C3 counterexample: in the basic variant (`main_app.py`), a
successful generation run creates no archive at all — the filesystem is left
with no zip — and its finished signal carries only the result text (the
signal has no path payload), so the claim as stated fails on this variant. -/
theorem c3_counterexample :
    (MainApp.PluginGenerator.run "Un plugin de buffers"
        ⟨Except.ok "RESULT"⟩ fs0).fs.zips = [] ∧
    (MainApp.PluginGenerator.run "Un plugin de buffers"
        ⟨Except.ok "RESULT"⟩ fs0).events =
      [MainApp.Event.progress "Inicializando sistema multiagente...",
       MainApp.Event.progress "Creando equipo de agentes...",
       MainApp.Event.progress "Ejecutando generación del plugin...",
       MainApp.Event.finished "RESULT"] :=
  ⟨rfl, rfl⟩

/-- Claim C3 (amended): in the improved variant, after the crew finishes the
program creates a zip archive whose only entry holds exactly the text the
model produced, and the finished signal carries the archive's path alongside
the result text; in the basic variant no archive is created and the finished
signal carries only the result text. -/
theorem c3_archive_packaging (user_request plugin_config res : String)
    (audio : Bool) (pkg : Mejorado.PkgEnv) (st : FSState)
    (hnone : pkg.failStep = none)
    (hfiles : ∀ f ∈ st.files, pkg.tmpDir.isPrefixOf f.1 = false)
    (hdirs : ∀ d ∈ st.dirs, pkg.tmpDir.isPrefixOf d = false) :
    ((Mejorado.PluginGenerator.run ⟨audio, true⟩ user_request plugin_config
        ⟨Except.ok (), Except.ok res, pkg⟩ st).events =
      [Mejorado.Event.progress "Inicializando sistema multiagente...",
       Mejorado.Event.progress "Creando equipo de agentes...",
       Mejorado.Event.progress "Ejecutando generación del plugin...",
       Mejorado.Event.finished res
         (some (pkg.cwd ++ ["qgis_plugin_" ++ pkg.timestamp ++ ".zip"]))] ∧
     (Mejorado.PluginGenerator.run ⟨audio, true⟩ user_request plugin_config
        ⟨Except.ok (), Except.ok res, pkg⟩ st).fs.zips =
      st.zips ++ [(pkg.cwd ++ ["qgis_plugin_" ++ pkg.timestamp ++ ".zip"],
        [(["qgis_plugin_" ++ pkg.timestamp, "resultado.txt"], res)])]) ∧
    ((MainApp.PluginGenerator.run user_request ⟨Except.ok res⟩ st).fs = st ∧
     (MainApp.PluginGenerator.run user_request ⟨Except.ok res⟩ st).events =
      [MainApp.Event.progress "Inicializando sistema multiagente...",
       MainApp.Event.progress "Creando equipo de agentes...",
       MainApp.Event.progress "Ejecutando generación del plugin...",
       MainApp.Event.finished res]) := by
  have h := create_plugin_package_success pkg st res hnone hfiles hdirs
  refine ⟨⟨?_, ?_⟩, rfl, rfl⟩ <;>
    simp [Mejorado.PluginGenerator.run, h]

/-- Claim C3 witness: a concrete successful run of the improved variant,
starting from an empty filesystem, leaves exactly one zip archive whose only
entry is `qgis_plugin_<timestamp>/resultado.txt` holding the result text. -/
theorem c3_witness :
    (Mejorado.PluginGenerator.run ⟨true, true⟩ "peticion" "cfg"
        ⟨Except.ok (), Except.ok "CODE", pkg0⟩ fs0).fs.zips =
      [(["home", "user", "qgis_plugin_20250101_120000.zip"],
        [(["qgis_plugin_20250101_120000", "resultado.txt"], "CODE")])] := by
  have h := (c3_archive_packaging "peticion" "cfg" "CODE" true pkg0 fs0 rfl
    (by intro f hf; simp [fs0] at hf) (by intro d hd; simp [fs0] at hd)).1.2
  simpa [pkg0, fs0] using h

/-- Claim C4 counterexample: in the improved variant, an exception raised
inside the packaging step (here the zip-building filesystem call raises) is
swallowed: the run emits no error signal at all and still emits the finished
signal, with a `None` archive path — contradicting the claim that every
exception during a run yields one error signal and no finished signal. -/
theorem c4_counterexample :
    (Mejorado.PluginGenerator.run ⟨true, true⟩ "peticion" "cfg"
        ⟨Except.ok (), Except.ok "CODE", pkgZipFail⟩ fs0).events =
      [Mejorado.Event.progress "Inicializando sistema multiagente...",
       Mejorado.Event.progress "Creando equipo de agentes...",
       Mejorado.Event.progress "Ejecutando generación del plugin...",
       Mejorado.Event.finished "CODE" none] ∧
    (Mejorado.PluginGenerator.run ⟨true, true⟩ "peticion" "cfg"
        ⟨Except.ok (), Except.ok "CODE", pkgZipFail⟩ fs0).events.filterMap
      Mejorado.Event.errorMsg? = [] :=
  ⟨rfl, rfl⟩

/-- Claim C4 (amended): every exception that reaches a `run`-level handler is
caught and reported exactly once, with no retry: exactly one error signal
carrying the exception's message is emitted and no finished signal; an
exception raised inside the packaging step, however, is caught there and only
logged — the run still emits its finished signal, with a `None` archive path
and no error signal. -/
theorem c4_single_catch_report :
    (∀ (user_request e : String) (st : FSState),
      (MainApp.PluginGenerator.run user_request ⟨Except.error e⟩ st).events.filterMap
        MainApp.Event.errorMsg? = ["Error en la generación del plugin: " ++ e] ∧
      (MainApp.PluginGenerator.run user_request ⟨Except.error e⟩ st).events.filterMap
        MainApp.Event.finishedMsg? = [] ∧
      (MainApp.PluginGenerator.run user_request ⟨Except.error e⟩ st).kickoffCalls = 1) ∧
    (∀ (audio : Bool) (user_request plugin_config e : String)
        (kick : Except String String) (pkg : Mejorado.PkgEnv) (st : FSState),
      (Mejorado.PluginGenerator.run ⟨audio, true⟩ user_request plugin_config
          ⟨Except.error e, kick, pkg⟩ st).events.filterMap
        Mejorado.Event.errorMsg? = ["Error conectando con Ollama: " ++ e] ∧
      (Mejorado.PluginGenerator.run ⟨audio, true⟩ user_request plugin_config
          ⟨Except.error e, kick, pkg⟩ st).events.filterMap
        Mejorado.Event.finishedMsg? = [] ∧
      (Mejorado.PluginGenerator.run ⟨audio, true⟩ user_request plugin_config
          ⟨Except.error e, kick, pkg⟩ st).kickoffCalls = 0) ∧
    (∀ (audio : Bool) (user_request plugin_config e : String)
        (pkg : Mejorado.PkgEnv) (st : FSState),
      (Mejorado.PluginGenerator.run ⟨audio, true⟩ user_request plugin_config
          ⟨Except.ok (), Except.error e, pkg⟩ st).events.filterMap
        Mejorado.Event.errorMsg? = ["Error en la generación del plugin: " ++ e] ∧
      (Mejorado.PluginGenerator.run ⟨audio, true⟩ user_request plugin_config
          ⟨Except.ok (), Except.error e, pkg⟩ st).events.filterMap
        Mejorado.Event.finishedMsg? = [] ∧
      (Mejorado.PluginGenerator.run ⟨audio, true⟩ user_request plugin_config
          ⟨Except.ok (), Except.error e, pkg⟩ st).kickoffCalls = 1) ∧
    (∀ (audio : Bool) (user_request plugin_config res ts : String)
        (cwd tmp : FsPath) (k : Nat) (st : FSState), k < 5 →
      (Mejorado.PluginGenerator.run ⟨audio, true⟩ user_request plugin_config
          ⟨Except.ok (), Except.ok res, ⟨ts, cwd, tmp, some k⟩⟩ st).events.filterMap
        Mejorado.Event.errorMsg? = [] ∧
      (Mejorado.PluginGenerator.run ⟨audio, true⟩ user_request plugin_config
          ⟨Except.ok (), Except.ok res, ⟨ts, cwd, tmp, some k⟩⟩ st).events.filterMap
        Mejorado.Event.finishedMsg? = [(res, none)] ∧
      (Mejorado.PluginGenerator.run ⟨audio, true⟩ user_request plugin_config
          ⟨Except.ok (), Except.ok res, ⟨ts, cwd, tmp, some k⟩⟩ st).kickoffCalls = 1) := by
  refine ⟨?_, ?_, ?_, ?_⟩
  · intro user_request e st
    refine ⟨?_, ?_, rfl⟩ <;>
      simp [MainApp.PluginGenerator.run, MainApp.Event.errorMsg?,
        MainApp.Event.finishedMsg?]
  · intro audio user_request plugin_config e kick pkg st
    refine ⟨?_, ?_, rfl⟩ <;>
      simp [Mejorado.PluginGenerator.run, Mejorado.Event.errorMsg?,
        Mejorado.Event.finishedMsg?, Mejorado.Event.progressMsg?]
  · intro audio user_request plugin_config e pkg st
    refine ⟨?_, ?_, rfl⟩ <;>
      simp [Mejorado.PluginGenerator.run, Mejorado.Event.errorMsg?,
        Mejorado.Event.finishedMsg?]
  · intro audio user_request plugin_config res ts cwd tmp k st hk5
    have h := create_plugin_package_fail ⟨ts, cwd, tmp, some k⟩ st res k rfl hk5
    refine ⟨?_, ?_, rfl⟩ <;>
      simp [Mejorado.PluginGenerator.run, Mejorado.Event.errorMsg?,
        Mejorado.Event.finishedMsg?, h]

/-- Claim C4 witness: a concrete run of the improved variant in which the
write of `resultado.txt` (filesystem operation 2) raises: no error signal at
all, and the finished signal carries a `None` archive path. -/
theorem c4_witness :
    (Mejorado.PluginGenerator.run ⟨true, true⟩ "peticion" "cfg"
        ⟨Except.ok (), Except.ok "CODE",
         ⟨"20250101_120000", ["home", "user"], ["tmp", "tmpabc123"], some 2⟩⟩
        fs0).events.filterMap Mejorado.Event.errorMsg? = [] ∧
    (Mejorado.PluginGenerator.run ⟨true, true⟩ "peticion" "cfg"
        ⟨Except.ok (), Except.ok "CODE",
         ⟨"20250101_120000", ["home", "user"], ["tmp", "tmpabc123"], some 2⟩⟩
        fs0).events.filterMap Mejorado.Event.finishedMsg? = [("CODE", none)] := by
  have h := c4_single_catch_report.2.2.2 true "peticion" "cfg" "CODE"
    "20250101_120000" ["home", "user"] ["tmp", "tmpabc123"] 2 fs0 (by omega)
  exact ⟨h.1, h.2.1⟩

/-- Claim C5 counterexample: in the improved variant, a generation run started
while CrewAI is unavailable emits only an error signal — in particular the
first claimed progress message is never emitted — so the claim that every run
emits all three progress messages fails. -/
theorem c5_counterexample :
    (Mejorado.PluginGenerator.run ⟨true, false⟩ "peticion" "cfg"
        ⟨Except.ok (), Except.ok "CODE", pkg0⟩ fs0).events =
      [Mejorado.Event.error "CrewAI no está disponible. Instala crewai."] ∧
    Mejorado.Event.progress "Inicializando sistema multiagente..." ∉
      (Mejorado.PluginGenerator.run ⟨true, false⟩ "peticion" "cfg"
        ⟨Except.ok (), Except.ok "CODE", pkg0⟩ fs0).events :=
  ⟨rfl, by decide⟩

/-- Claim C5 (amended): every generation run emits its progress messages as a
prefix of `["Inicializando sistema multiagente...", "Creando equipo de
agentes...", "Ejecutando generación del plugin..."]` in that order — all
three whenever the run reaches the crew kickoff, and always in the basic
variant — and terminates by emitting exactly one of the finished or error
signals, as its final emission, never both and never neither. -/
theorem c5_progress_and_terminal :
    (∀ (user_request : String) (kick : Except String String) (st : FSState),
      MainApp.progressMsgs (MainApp.PluginGenerator.run user_request ⟨kick⟩ st).events =
        ["Inicializando sistema multiagente...", "Creando equipo de agentes...",
         "Ejecutando generación del plugin..."] ∧
      MainApp.terminalCount (MainApp.PluginGenerator.run user_request ⟨kick⟩ st).events = 1 ∧
      MainApp.endsTerminal (MainApp.PluginGenerator.run user_request ⟨kick⟩ st).events) ∧
    (∀ (g : Mejorado.Globals) (user_request plugin_config : String)
        (env : Mejorado.Env) (st : FSState),
      Mejorado.progressMsgs
          (Mejorado.PluginGenerator.run g user_request plugin_config env st).events <+:
        ["Inicializando sistema multiagente...", "Creando equipo de agentes...",
         "Ejecutando generación del plugin..."] ∧
      Mejorado.terminalCount
        (Mejorado.PluginGenerator.run g user_request plugin_config env st).events = 1 ∧
      Mejorado.endsTerminal
        (Mejorado.PluginGenerator.run g user_request plugin_config env st).events ∧
      ((Mejorado.PluginGenerator.run g user_request plugin_config env st).kickoffCalls = 1 →
        Mejorado.progressMsgs
          (Mejorado.PluginGenerator.run g user_request plugin_config env st).events =
          ["Inicializando sistema multiagente...", "Creando equipo de agentes...",
           "Ejecutando generación del plugin..."])) := by
  constructor
  · intro user_request kick st
    cases kick with
    | ok result =>
      refine ⟨?_, ?_, ?_⟩
      · simp [MainApp.PluginGenerator.run, MainApp.progressMsgs, MainApp.Event.progressMsg?]
      · simp [MainApp.PluginGenerator.run, MainApp.terminalCount, MainApp.Event.isTerminal]
      · exact ⟨[MainApp.Event.progress "Inicializando sistema multiagente...",
                MainApp.Event.progress "Creando equipo de agentes...",
                MainApp.Event.progress "Ejecutando generación del plugin..."],
               MainApp.Event.finished result, rfl, rfl⟩
    | error e =>
      refine ⟨?_, ?_, ?_⟩
      · simp [MainApp.PluginGenerator.run, MainApp.progressMsgs, MainApp.Event.progressMsg?]
      · simp [MainApp.PluginGenerator.run, MainApp.terminalCount, MainApp.Event.isTerminal]
      · exact ⟨[MainApp.Event.progress "Inicializando sistema multiagente...",
                MainApp.Event.progress "Creando equipo de agentes...",
                MainApp.Event.progress "Ejecutando generación del plugin..."],
               MainApp.Event.error ("Error en la generación del plugin: " ++ e), rfl, rfl⟩
  · intro g user_request plugin_config env st
    obtain ⟨audio, crewai⟩ := g
    obtain ⟨llmEnv, kick, pkg⟩ := env
    cases crewai with
    | false =>
      refine ⟨⟨_, rfl⟩, ?_, ?_, ?_⟩
      · simp [Mejorado.PluginGenerator.run, Mejorado.terminalCount, Mejorado.Event.isTerminal]
      · exact ⟨[], Mejorado.Event.error "CrewAI no está disponible. Instala crewai.", rfl, rfl⟩
      · intro h
        simp [Mejorado.PluginGenerator.run] at h
    | true =>
      cases llmEnv with
      | error e =>
        refine ⟨?_, ?_, ?_, ?_⟩
        · exact ⟨["Creando equipo de agentes...", "Ejecutando generación del plugin..."],
            by simp [Mejorado.PluginGenerator.run, Mejorado.progressMsgs,
              Mejorado.Event.progressMsg?]⟩
        · simp [Mejorado.PluginGenerator.run, Mejorado.terminalCount, Mejorado.Event.isTerminal]
        · exact ⟨[Mejorado.Event.progress "Inicializando sistema multiagente..."],
            Mejorado.Event.error ("Error conectando con Ollama: " ++ e), rfl, rfl⟩
        · intro h
          simp [Mejorado.PluginGenerator.run] at h
      | ok u =>
        cases kick with
        | error e =>
          refine ⟨?_, ?_, ?_, ?_⟩
          · exact ⟨[], by simp [Mejorado.PluginGenerator.run, Mejorado.progressMsgs,
              Mejorado.Event.progressMsg?]⟩
          · simp [Mejorado.PluginGenerator.run, Mejorado.terminalCount, Mejorado.Event.isTerminal]
          · exact ⟨[Mejorado.Event.progress "Inicializando sistema multiagente...",
                    Mejorado.Event.progress "Creando equipo de agentes...",
                    Mejorado.Event.progress "Ejecutando generación del plugin..."],
              Mejorado.Event.error ("Error en la generación del plugin: " ++ e), rfl, rfl⟩
          · intro h
            simp [Mejorado.PluginGenerator.run, Mejorado.progressMsgs, Mejorado.Event.progressMsg?]
        | ok result =>
          refine ⟨?_, ?_, ?_, ?_⟩
          · exact ⟨[], by simp [Mejorado.PluginGenerator.run, Mejorado.progressMsgs,
              Mejorado.Event.progressMsg?]⟩
          · simp [Mejorado.PluginGenerator.run, Mejorado.terminalCount, Mejorado.Event.isTerminal]
          · exact ⟨[Mejorado.Event.progress "Inicializando sistema multiagente...",
                    Mejorado.Event.progress "Creando equipo de agentes...",
                    Mejorado.Event.progress "Ejecutando generación del plugin..."],
              Mejorado.Event.finished result
                (Mejorado.PluginGenerator.create_plugin_package pkg st result).1, rfl, rfl⟩
          · intro h
            simp [Mejorado.PluginGenerator.run, Mejorado.progressMsgs, Mejorado.Event.progressMsg?]

/-- Claim C5 witness: a concrete successful run of the improved variant
reaches kickoff and emits all three progress messages. -/
theorem c5_witness :
    Mejorado.progressMsgs
      (Mejorado.PluginGenerator.run ⟨true, true⟩ "peticion" "cfg"
        ⟨Except.ok (), Except.ok "CODE", pkg0⟩ fs0).events =
      ["Inicializando sistema multiagente...", "Creando equipo de agentes...",
       "Ejecutando generación del plugin..."] :=
  (c5_progress_and_terminal.2 ⟨true, true⟩ "peticion" "cfg"
    ⟨Except.ok (), Except.ok "CODE", pkg0⟩ fs0).2.2.2 rfl

/-- Claim C6: every operation constructs a freshly allocated worker thread:
`generate_plugin` (both variants, on a non-empty request) stores a
`PluginGenerator` whose id was never handed out before, and the basic
variant's `start_recording` stores an equally fresh `AudioRecorder`;
allocation monotonicity (`FreshIds`) is preserved, so no worker object is
ever reused across operations. -/
theorem c6_fresh_worker_per_operation :
    (∀ s : MainApp.UIState, MainApp.FreshIds s → pyStrip s.textInput ≠ "" →
      (MainApp.generate_plugin s).plugin_generator = some s.nextId ∧
      s.nextId ∉ s.created ∧
      (MainApp.generate_plugin s).created = s.created ++ [s.nextId] ∧
      MainApp.FreshIds (MainApp.generate_plugin s)) ∧
    (∀ s : MainApp.UIState, MainApp.FreshIds s →
      (MainApp.start_recording s).audio_recorder = some s.nextId ∧
      s.nextId ∉ s.created ∧
      (MainApp.start_recording s).created = s.created ++ [s.nextId] ∧
      MainApp.FreshIds (MainApp.start_recording s)) ∧
    (∀ (audio reply : Bool) (plugin_config : String) (s : Mejorado.UIState),
      Mejorado.FreshIds s → pyStrip s.textInput ≠ "" →
      (20 ≤ (pyStrip s.textInput).length ∨ reply = true) →
      (Mejorado.generate_plugin ⟨audio, true⟩ reply plugin_config s).plugin_generator =
        some s.nextId ∧
      s.nextId ∉ s.created ∧
      (Mejorado.generate_plugin ⟨audio, true⟩ reply plugin_config s).created =
        s.created ++ [s.nextId] ∧
      Mejorado.FreshIds (Mejorado.generate_plugin ⟨audio, true⟩ reply plugin_config s)) := by
  refine ⟨?_, ?_, ?_⟩
  · intro s hf hne
    have hgen : MainApp.generate_plugin s =
        { s with generateEnabled := false
                 recordEnabled := false
                 progressVisible := true
                 console := s.console ++
                   ["Iniciando generación del plugin...", "Petición: " ++ pyStrip s.textInput]
                 plugin_generator := some s.nextId
                 nextId := s.nextId + 1
                 created := s.created ++ [s.nextId]
                 started := s.started ++ [s.nextId] } := by
      simp [MainApp.generate_plugin, hne]
    refine ⟨by rw [hgen], fun hmem => absurd (hf _ hmem) (lt_irrefl _), by rw [hgen], ?_⟩
    rw [hgen]
    intro i hi
    have hi' : i ∈ s.created ++ [s.nextId] := hi
    show i < s.nextId + 1
    rcases List.mem_append.mp hi' with h | h
    · exact Nat.lt_succ_of_lt (hf _ h)
    · simp at h
      omega
  · intro s hf
    refine ⟨rfl, fun hmem => absurd (hf _ hmem) (lt_irrefl _), rfl, ?_⟩
    intro i hi
    have hi' : i ∈ s.created ++ [s.nextId] := hi
    show i < s.nextId + 1
    rcases List.mem_append.mp hi' with h | h
    · exact Nat.lt_succ_of_lt (hf _ h)
    · simp at h
      omega
  · intro audio reply plugin_config s hf hne h20
    have hcond : ¬((pyStrip s.textInput).length < 20 ∧ reply = false) := by
      rcases h20 with h | h
      · rintro ⟨hl, -⟩
        omega
      · rintro ⟨-, hr⟩
        rw [h] at hr
        cases hr
    have hgen : Mejorado.generate_plugin ⟨audio, true⟩ reply plugin_config s =
        { s with generateEnabled := false
                 recordEnabled := false
                 saveEnabled := false
                 progressVisible := true
                 status := "Generando plugin..."
                 console := s.console ++
                   ["Iniciando generación del plugin...",
                    "Petición: " ++ pyStrip s.textInput,
                    "Configuración: " ++ plugin_config]
                 plugin_generator := some s.nextId
                 nextId := s.nextId + 1
                 created := s.created ++ [s.nextId]
                 started := s.started ++ [s.nextId] } := by
      simp [Mejorado.generate_plugin, hne, hcond]
    refine ⟨by rw [hgen], fun hmem => absurd (hf _ hmem) (lt_irrefl _), by rw [hgen], ?_⟩
    rw [hgen]
    intro i hi
    have hi' : i ∈ s.created ++ [s.nextId] := hi
    show i < s.nextId + 1
    rcases List.mem_append.mp hi' with h | h
    · exact Nat.lt_succ_of_lt (hf _ h)
    · simp at h
      omega

/-- Claim C6 witness: from a concrete ready state that has already handed out
worker id 0, generating a plugin allocates the fresh worker id 1. -/
theorem c6_witness :
    (MainApp.generate_plugin
      { textInput := "Necesito un plugin que cree una capa de buffer"
        generateEnabled := true, recordEnabled := true, progressVisible := false
        console := [], errors := [], plugin_generator := none
        audio_recorder := some 0, recorderRecording := false
        nextId := 1, created := [0], started := [0] }).plugin_generator = some 1 ∧
    (1 : Nat) ∉ [0] :=
  ⟨(c6_fresh_worker_per_operation.1
      { textInput := "Necesito un plugin que cree una capa de buffer"
        generateEnabled := true, recordEnabled := true, progressVisible := false
        console := [], errors := [], plugin_generator := none
        audio_recorder := some 0, recorderRecording := false
        nextId := 1, created := [0], started := [0] }
      (by intro i hi; simp at hi; subst hi; decide) (by decide)).1,
   (c6_fresh_worker_per_operation.1
      { textInput := "Necesito un plugin que cree una capa de buffer"
        generateEnabled := true, recordEnabled := true, progressVisible := false
        console := [], errors := [], plugin_generator := none
        audio_recorder := some 0, recorderRecording := false
        nextId := 1, created := [0], started := [0] }
      (by intro i hi; simp at hi; subst hi; decide) (by decide)).2.1⟩

/-- Claim C7: the speech-to-text front end is optional.  When the audio
libraries are unavailable the application still builds its initial state with
the record button disabled (the generate button is governed only by CrewAI
availability), the `AudioRecorder` thread emits one error signal instead of
recording, `toggle_recording` reports an error and constructs no recorder,
and both the `generate_plugin` handler and the generation worker are entirely
independent of audio availability. -/
theorem c7_optional_audio :
    (∀ crewai : Bool,
      (Mejorado.initState ⟨false, crewai⟩).recordEnabled = false ∧
      (Mejorado.initState ⟨false, crewai⟩).generateEnabled = crewai) ∧
    (∀ (crewai : Bool) (env : Mejorado.AudioEnv),
      Mejorado.AudioRecorder.run ⟨false, crewai⟩ env =
        { events := [Mejorado.AudioEvent.error
            "Audio no disponible. Instala pyaudio y whisper."]
          recorded := false }) ∧
    (∀ (crewai : Bool) (s : Mejorado.UIState),
      Mejorado.toggle_recording ⟨false, crewai⟩ s =
        Mejorado.show_error
          "Funcionalidad de audio no disponible. Instala pyaudio y whisper." s ∧
      (Mejorado.toggle_recording ⟨false, crewai⟩ s).audio_recorder = s.audio_recorder ∧
      (Mejorado.toggle_recording ⟨false, crewai⟩ s).created = s.created ∧
      (Mejorado.toggle_recording ⟨false, crewai⟩ s).started = s.started) ∧
    (∀ (a₁ a₂ crewai reply : Bool) (plugin_config : String) (s : Mejorado.UIState),
      Mejorado.generate_plugin ⟨a₁, crewai⟩ reply plugin_config s =
        Mejorado.generate_plugin ⟨a₂, crewai⟩ reply plugin_config s) ∧
    (∀ (a₁ a₂ crewai : Bool) (user_request plugin_config : String)
        (env : Mejorado.Env) (st : FSState),
      Mejorado.PluginGenerator.run ⟨a₁, crewai⟩ user_request plugin_config env st =
        Mejorado.PluginGenerator.run ⟨a₂, crewai⟩ user_request plugin_config env st) :=
  ⟨fun _ => ⟨rfl, rfl⟩, fun _ _ => rfl, fun _ _ => ⟨rfl, rfl, rfl, rfl⟩,
   fun _ _ _ _ _ _ => rfl, fun _ _ _ _ _ _ _ => rfl⟩

/-- Claim C8: a request that is empty after stripping whitespace makes
`generate_plugin` report an error and return without constructing or starting
a worker, leaving the buttons, the progress bar and the worker bookkeeping
untouched (in the improved variant the reported error is the CrewAI one when
CrewAI is unavailable, the empty-request one otherwise). -/
theorem c8_empty_input_guard :
    (∀ s : MainApp.UIState, pyStrip s.textInput = "" →
      MainApp.generate_plugin s =
        MainApp.show_error
          "Por favor, ingresa una descripción del plugin que deseas crear." s ∧
      (MainApp.generate_plugin s).errors =
        s.errors ++ ["Por favor, ingresa una descripción del plugin que deseas crear."] ∧
      (MainApp.generate_plugin s).generateEnabled = s.generateEnabled ∧
      (MainApp.generate_plugin s).recordEnabled = s.recordEnabled ∧
      (MainApp.generate_plugin s).progressVisible = s.progressVisible ∧
      (MainApp.generate_plugin s).plugin_generator = s.plugin_generator ∧
      (MainApp.generate_plugin s).created = s.created ∧
      (MainApp.generate_plugin s).started = s.started) ∧
    (∀ (g : Mejorado.Globals) (reply : Bool) (plugin_config : String)
        (s : Mejorado.UIState), pyStrip s.textInput = "" →
      Mejorado.generate_plugin g reply plugin_config s =
        Mejorado.show_error
          (cond g.crewaiAvailable
            "Por favor, ingresa una descripción del plugin que deseas crear."
            "CrewAI no está disponible. Instala crewai para usar esta funcionalidad.") s ∧
      (Mejorado.generate_plugin g reply plugin_config s).errors.length =
        s.errors.length + 1 ∧
      (Mejorado.generate_plugin g reply plugin_config s).generateEnabled =
        s.generateEnabled ∧
      (Mejorado.generate_plugin g reply plugin_config s).recordEnabled =
        s.recordEnabled ∧
      (Mejorado.generate_plugin g reply plugin_config s).progressVisible =
        s.progressVisible ∧
      (Mejorado.generate_plugin g reply plugin_config s).plugin_generator =
        s.plugin_generator ∧
      (Mejorado.generate_plugin g reply plugin_config s).created = s.created ∧
      (Mejorado.generate_plugin g reply plugin_config s).started = s.started) := by
  constructor
  · intro s h
    have he : MainApp.generate_plugin s =
        MainApp.show_error
          "Por favor, ingresa una descripción del plugin que deseas crear." s := by
      simp [MainApp.generate_plugin, h]
    exact ⟨he, by rw [he]; rfl, by rw [he]; rfl, by rw [he]; rfl, by rw [he]; rfl,
      by rw [he]; rfl, by rw [he]; rfl, by rw [he]; rfl⟩
  · intro g reply plugin_config s h
    obtain ⟨audio, crewai⟩ := g
    have he : Mejorado.generate_plugin ⟨audio, crewai⟩ reply plugin_config s =
        Mejorado.show_error
          (cond crewai
            "Por favor, ingresa una descripción del plugin que deseas crear."
            "CrewAI no está disponible. Instala crewai para usar esta funcionalidad.") s := by
      cases crewai with
      | false => rfl
      | true => simp [Mejorado.generate_plugin, h]
    refine ⟨he, ?_, by rw [he]; rfl, by rw [he]; rfl, by rw [he]; rfl, by rw [he]; rfl,
      by rw [he]; rfl, by rw [he]; rfl⟩
    rw [he]
    simp [Mejorado.show_error]

/-- Claim C8 witness: at a concrete state whose text input is whitespace
only, the basic variant's `generate_plugin` is exactly `show_error` applied
to the unchanged state. -/
theorem c8_witness :
    MainApp.generate_plugin
      { textInput := "   ", generateEnabled := true, recordEnabled := true
        progressVisible := false, console := [], errors := []
        plugin_generator := none, audio_recorder := none
        recorderRecording := false, nextId := 0, created := [], started := [] } =
      MainApp.show_error
        "Por favor, ingresa una descripción del plugin que deseas crear."
        { textInput := "   ", generateEnabled := true, recordEnabled := true
          progressVisible := false, console := [], errors := []
          plugin_generator := none, audio_recorder := none
          recorderRecording := false, nextId := 0, created := [], started := [] } :=
  (c8_empty_input_guard.1
    { textInput := "   ", generateEnabled := true, recordEnabled := true
      progressVisible := false, console := [], errors := []
      plugin_generator := none, audio_recorder := none
      recorderRecording := false, nextId := 0, created := [], started := [] }
    (by decide)).1

/-- Claim C9: `create_plugin_package` either (no filesystem call raising)
returns the path `<cwd>/qgis_plugin_<timestamp>.zip` of a new archive whose
only entry is `qgis_plugin_<timestamp>/resultado.txt` holding exactly the
result text, with the temporary staging directory removed and the rest of the
filesystem untouched, or (some filesystem call raising) catches the exception
and returns `None` instead of propagating it. -/
theorem c9_package_contract (text : String) (env : Mejorado.PkgEnv) (st : FSState)
    (hfiles : ∀ f ∈ st.files, env.tmpDir.isPrefixOf f.1 = false)
    (hdirs : ∀ d ∈ st.dirs, env.tmpDir.isPrefixOf d = false) :
    (env.failStep = none →
      Mejorado.PluginGenerator.create_plugin_package env st text =
        (some (env.cwd ++ ["qgis_plugin_" ++ env.timestamp ++ ".zip"]),
         { dirs := st.dirs, files := st.files,
           zips := st.zips ++ [(env.cwd ++ ["qgis_plugin_" ++ env.timestamp ++ ".zip"],
             [(["qgis_plugin_" ++ env.timestamp, "resultado.txt"], text)])] })) ∧
    (∀ k : Nat, env.failStep = some k → k < 5 →
      (Mejorado.PluginGenerator.create_plugin_package env st text).1 = none) :=
  ⟨fun h => create_plugin_package_success env st text h hfiles hdirs,
   fun k hk hk5 => create_plugin_package_fail env st text k hk hk5⟩

/-- Claim C9 witness: packaging result text `"CODE"` in an empty filesystem
with a failure-free environment yields exactly the described archive. -/
theorem c9_witness :
    Mejorado.PluginGenerator.create_plugin_package pkg0 fs0 "CODE" =
      (some ["home", "user", "qgis_plugin_20250101_120000.zip"],
       { dirs := [], files := []
         zips := [(["home", "user", "qgis_plugin_20250101_120000.zip"],
           [(["qgis_plugin_20250101_120000", "resultado.txt"], "CODE")])] }) :=
  (c9_package_contract "CODE" pkg0 fs0
    (by intro f hf; simp [fs0] at hf)
    (by intro d hd; simp [fs0] at hd)).1 rfl

/-- Claim C10: after either terminal outcome of a generation run, the
presentation layer restores its ready state: both variants re-enable the
generate button and hide the progress bar, the basic variant re-enables the
record button unconditionally, and the improved variant re-enables it exactly
when audio is available. -/
theorem c10_ready_state_restored :
    (∀ (result : String) (s : MainApp.UIState),
      (MainApp.on_generation_finished result s).generateEnabled = true ∧
      (MainApp.on_generation_finished result s).recordEnabled = true ∧
      (MainApp.on_generation_finished result s).progressVisible = false) ∧
    (∀ (err : String) (s : MainApp.UIState),
      (MainApp.on_generation_error err s).generateEnabled = true ∧
      (MainApp.on_generation_error err s).recordEnabled = true ∧
      (MainApp.on_generation_error err s).progressVisible = false) ∧
    (∀ (g : Mejorado.Globals) (result : String) (zip_path : Option FsPath)
        (s : Mejorado.UIState),
      (Mejorado.on_generation_finished g result zip_path s).generateEnabled = true ∧
      (Mejorado.on_generation_finished g result zip_path s).recordEnabled =
        g.audioAvailable ∧
      (Mejorado.on_generation_finished g result zip_path s).progressVisible = false) ∧
    (∀ (g : Mejorado.Globals) (err : String) (s : Mejorado.UIState),
      (Mejorado.on_generation_error g err s).generateEnabled = true ∧
      (Mejorado.on_generation_error g err s).recordEnabled = g.audioAvailable ∧
      (Mejorado.on_generation_error g err s).progressVisible = false) :=
  ⟨fun _ _ => ⟨rfl, rfl, rfl⟩, fun _ _ => ⟨rfl, rfl, rfl⟩,
   fun _ _ _ _ => ⟨rfl, rfl, rfl⟩, fun _ _ _ => ⟨rfl, rfl, rfl⟩⟩
